import Mathlib

/-!
Shallow embedding of the puzzle_solver repository (puzzle/board.py,
puzzle/piece/matcher.py, puzzle/piece/edge.py, puzzle/builder/adjacent.py,
puzzle/parser/fromLayer.py) together with proofs about the claims on its
specification.

Conventions of the embedding:
* Python exceptions and the bare `exit()` call are modelled by the
  `PyOutcome` type: `ok v` is a normal return, `raised e` is a raised
  (catchable) exception of kind `e`, and `exited` is a process exit,
  which no caller can observe as an exception value.
* Machine numbers are modelled by `Int` (pixel coordinates, indices) and
  `Rat` (thresholds, distances).  Where the Python code compares a
  Euclidean distance (a square root) against a nonnegative threshold, the
  embedding compares the squared distance against the squared threshold,
  which yields the same boolean; the guard `0 < tau` keeps the
  degenerate nonpositive-threshold case faithful.
* Randomness (numpy.random.choice inside board.testAdjacent) is made an
  explicit argument: the list of chosen contour indices is passed in.
* Data produced by external collaborators (OpenCV contours, resized
  color profiles, float distance kernels) is carried as opaque values or
  function parameters; the repository's own control flow around them is
  embedded exactly.
-/

/-- Kinds of Python exceptions raised by the embedded code.
`emptyBoardError`, which the specification names, is included so that
statements about it can be made; the source never raises it. -/
inductive PyError where
  | runtimeError
  | typeError
  | notImplementedError
  | emptyBoardError
  deriving DecidableEq, Repr

/-- Outcome of running a piece of Python code: a normal return, a raised
(catchable) exception, or a process exit via the builtin `exit()`. -/
inductive PyOutcome (α : Type) where
  | ok (val : α)
  | raised (e : PyError)
  | exited
  deriving DecidableEq, Repr

/-- A puzzle piece (puzzle/piece/template.py `template`): an id assigned
by the board, a top-left location `rLoc`, a size derived from its mask
bounding box, and the list of contour pixel coordinates of its mask
(local coordinates, as produced by `np.where(piece.y.contour)` after the
flip to (x, y) order). -/
structure Piece where
  id : Nat
  rLoc : Int × Int
  sz : Int × Int
  contour : List (Int × Int)
  deriving DecidableEq, Repr

/-- A puzzle board (puzzle/board.py `board`): the list of pieces and the
monotone id counter. -/
structure Board where
  pieces : List Piece
  id_count : Nat
  deriving DecidableEq, Repr

namespace board

/-- board.size: the number of pieces on the board. -/
def size (b : Board) : Nat :=
  b.pieces.length

/-- board.addPiece: assigns `piece.id = id_count`, increments the
counter and appends the piece. -/
def addPiece (b : Board) (p : Piece) : Board :=
  { pieces := b.pieces ++ [{ p with id := b.id_count }],
    id_count := b.id_count + 1 }

/-- Python truthiness of the `rm_index` variable in board.rmPiece:
`None` is falsy, and so is the integer `0`. -/
def pyTruthyIdx : Option Nat → Bool
  | none => false
  | some n => n != 0

/-- board.rmPiece: scans for the first piece whose id matches, recording
its index in `rm_index` (initially `None`), then deletes at that index
under the guard `if rm_index:` — which is Python truthiness, false both
for `None` and for index `0`. -/
def rmPiece (b : Board) (id : Nat) : Board :=
  let rm_index := b.pieces.findIdx? (fun piece => piece.id == id)
  if pyTruthyIdx rm_index then
    { b with pieces := b.pieces.eraseIdx (rm_index.getD 0) }
  else
    b

/-- board.boundingBox: with zero pieces the code prints and calls
`exit()`.  Otherwise it folds componentwise `min` over the top-left
corners starting from `[inf, inf]` and componentwise `max` over the
bottom-right corners starting from `[0, 0]`; for a non-empty list the
min fold from infinity equals the fold from the first piece's corner,
which is how it is written here. -/
def boundingBox (b : Board) : PyOutcome ((Int × Int) × (Int × Int)) :=
  match b.pieces with
  | [] => PyOutcome.exited
  | p :: rest =>
    let tl := fun (q : Piece) => q.rLoc
    let br := fun (q : Piece) => (q.rLoc.1 + q.sz.1, q.rLoc.2 + q.sz.2)
    let mn := rest.foldl
      (fun a q => (min a.1 (tl q).1, min a.2 (tl q).2)) (tl p)
    let mx := rest.foldl
      (fun a q => (max a.1 (br q).1, max a.2 (br q).2))
      (max 0 (br p).1, max 0 (br p).2)
    PyOutcome.ok (mn, mx)

/-- board.extents: `boundingBox()[1] - boundingBox()[0]`, propagating
the empty-board exit. -/
def extents (b : Board) : PyOutcome (Int × Int) :=
  match boundingBox b with
  | PyOutcome.ok bbox =>
      PyOutcome.ok (bbox.2.1 - bbox.1.1, bbox.2.2 - bbox.1.2)
  | PyOutcome.raised e => PyOutcome.raised e
  | PyOutcome.exited => PyOutcome.exited

/-- Insertion into a Python dict rendered as an association list kept in
insertion order: an existing key is overwritten in place, a new key is
appended. -/
def dictInsert (d : List (Nat × (Int × Int))) (k : Nat) (v : Int × Int) :
    List (Nat × (Int × Int)) :=
  if d.any (fun kv => kv.1 == k) then
    d.map (fun kv => if kv.1 == k then (k, v) else kv)
  else
    d ++ [(k, v)]

/-- board.pieceLocations: builds the dict `{piece.id : piece.rLoc}` by
iterating over the pieces in order. -/
def pieceLocations (b : Board) : List (Nat × (Int × Int)) :=
  b.pieces.foldl (fun pLocs piece => dictInsert pLocs piece.id piece.rLoc) []

end board

namespace matcher

/-- matcher.process (base class): the body is `pass`, so every call
returns `None` — embedded as a normal return of no feature vector. -/
def process (y : Piece) : PyOutcome (Option Unit) :=
  PyOutcome.ok none

/-- matcher.score (base class): unconditionally `raise
NotImplementedError`.  The score type on success would be a rational. -/
def score (yA yB : Piece) : PyOutcome Rat :=
  PyOutcome.raised PyError.notImplementedError

/-- matcher.compare (base class): unconditionally `raise
NotImplementedError`. -/
def compare (yA yB : Piece) : PyOutcome Bool :=
  PyOutcome.raised PyError.notImplementedError

end matcher

/-! ### Edge matcher (puzzle/piece/edge.py)

The per-edge features are produced by numpy/OpenCV (nonzero-pixel
coordinates, `cv2.resize` color profiles); the embedding carries them as
opaque tokens and takes the two numeric distance kernels — `dis_shape`
(the method dispatch; for the default method 'type' it is equality of
edge types giving 0 or float inf) and `dis_color` (a float mean of
Euclidean norms) — as explicit function parameters.  The control flow of
`score` and `compare` around those kernels is embedded exactly. -/

/-- A Python float as far as threshold comparison is concerned: a finite
rational or `float('inf')`. -/
inductive EFloat where
  | fin (q : Rat)
  | inf
  deriving DecidableEq, Repr

/-- Comparison `distance < tau` for a finite threshold: `inf < tau` is
false. -/
def EFloat.ltTau : EFloat → Rat → Bool
  | EFloat.fin q, t => q < t
  | EFloat.inf, _ => false

/-- One edge descriptor of a regular piece: the discrete edge type used
by the 'type' shape method, and an opaque token standing for the
resampled color profile. -/
structure EdgeDes where
  etype : Nat
  colorFea : Nat

/-- The four edges of a regular piece. -/
structure RegularData where
  edge : Fin 4 → EdgeDes

/-- A piece value as edge.score sees it: either a `regular` instance or
some other (template-class) instance. -/
inductive PieceObj where
  | regular (d : RegularData)
  | template (tok : Nat)

/-- The Python dynamic type tag compared by `type(piece_A) !=
type(piece_B)`. -/
def pyType : PieceObj → Nat
  | PieceObj.regular _ => 0
  | PieceObj.template _ => 1

namespace edge

/-- dis_shape for the default method 'type': distance 0 when the two
edge types are equal, `float('inf')` otherwise. -/
def dis_shape_type (a b : Nat) : EFloat :=
  if a == b then EFloat.fin 0 else EFloat.inf

/-- edge.score: raises TypeError when the two arguments have different
dynamic types or are not regular instances; otherwise builds, for each
of the 4 edges, one shape distance and one color distance via the given
kernels (the code's `dis_shape` under the chosen method, and
`dis_color`). -/
def score (dshape dcolor : Nat → Nat → EFloat) (piece_A piece_B : PieceObj) :
    PyOutcome (List EFloat × List EFloat) :=
  if pyType piece_A != pyType piece_B then
    PyOutcome.raised PyError.typeError
  else
    match piece_A, piece_B with
    | PieceObj.regular dA, PieceObj.regular dB =>
        PyOutcome.ok
          ((List.finRange 4).map
             (fun i => dshape (dA.edge i).etype (dB.edge i).etype),
           (List.finRange 4).map
             (fun i => dcolor (dA.edge i).colorFea (dB.edge i).colorFea))
    | _, _ => PyOutcome.raised PyError.typeError

/-- edge.compare: calls `score`, then returns True exactly when every
shape distance is `< tau_shape` AND every color distance is
`< tau_color`; a raised score exception propagates. -/
def compare (tau_shape tau_color : Rat) (dshape dcolor : Nat → Nat → EFloat)
    (piece_A piece_B : PieceObj) : PyOutcome Bool :=
  match score dshape dcolor piece_A piece_B with
  | PyOutcome.ok (distance_shape, distance_color) =>
      PyOutcome.ok
        (distance_shape.all (fun d => d.ltTau tau_shape)
          && distance_color.all (fun d => d.ltTau tau_color))
  | PyOutcome.raised e => PyOutcome.raised e
  | PyOutcome.exited => PyOutcome.exited

end edge

/-! ### Adjacency test and the Adjacent builder
(board.testAdjacent in puzzle/board.py, puzzle/builder/adjacent.py) -/

namespace board

/-- The contour points of a piece in board coordinates: the mask's
contour pixel coordinates offset by `rLoc`, then subsampled at the index
list drawn by `np.random.choice` (the randomness made explicit; the
drawn indices are in range by construction, out-of-range defaults never
fire in any theorem below). -/
def obtain_sub_pts (piece : Piece) (draw : List Nat) : List (Int × Int) :=
  let pts := piece.contour.map
    (fun xy => (xy.1 + piece.rLoc.1, xy.2 + piece.rLoc.2))
  draw.map (fun i => pts.getD i (0, 0))

/-- Squared Euclidean distance between two integer points. -/
def sqDist (a b : Int × Int) : Int :=
  (a.1 - b.1) ^ 2 + (a.2 - b.2) ^ 2

/-- The minimum squared distance over all point pairs (`cdist(...).min()`
with squaring), `none` when either set is empty (numpy would raise
there; every use below has non-empty samples). -/
def minSqDist (ptsA ptsB : List (Int × Int)) : Option Int :=
  ptsA.foldl (fun m a => ptsB.foldl (fun m b =>
    match m with
    | none => some (sqDist a b)
    | some v => some (min v (sqDist a b))) m) none

/-- board.testAdjacent: subsample both contours, take the minimum
pairwise Euclidean distance, and compare it against `tauAdj`.  The code
compares `dists.min() < tauAdj` on real square roots; for a nonnegative
minimum this equals `0 < tauAdj` and `minSqDist < tauAdj^2`, which is
how it is decided here. -/
def testAdjacent (b : Board) (index_A index_B : Nat) (tauAdj : Rat)
    (drawA drawB : List Nat) : Bool :=
  let pts_A := obtain_sub_pts (b.pieces.getD index_A (Piece.mk 0 (0, 0) (0, 0) [])) drawA
  let pts_B := obtain_sub_pts (b.pieces.getD index_B (Piece.mk 0 (0, 0) (0, 0) [])) drawB
  match minSqDist pts_A pts_B with
  | none => false
  | some d => decide (0 < tauAdj ∧ (d : Rat) < tauAdj ^ 2)

end board

namespace adjacent

/-- Point update of a boolean matrix rendered as a function: the code's
`adjMat[a, b] = True`. -/
def matSet (m : Nat → Nat → Bool) (a b : Nat) : Nat → Nat → Bool :=
  fun i j => if i = a ∧ j = b then true else m i j

/-- The index pairs visited by the double loop in
adjacent.__processAdjacency: all `(ii, jj)` with `ii < jj < n`, in loop
order. -/
def adjPairs (n : Nat) : List (Nat × Nat) :=
  (List.range n).flatMap
    (fun ii => (List.range' (ii + 1) (n - (ii + 1))).map (fun jj => (ii, jj)))

/-- One iteration of the loop body: when the adjacency test fires, both
`adjMat[ii, jj]` and `adjMat[jj, ii]` are set to True. -/
def adjStep (t : Nat → Nat → Bool) (m : Nat → Nat → Bool) (p : Nat × Nat) :
    Nat → Nat → Bool :=
  if t p.1 p.2 then matSet (matSet m p.1 p.2) p.2 p.1 else m

/-- adjacent.__processAdjacency given the per-pair adjacency test
outcome `t`. -/
def processAdjacency (n : Nat) (t : Nat → Nat → Bool)
    (m : Nat → Nat → Bool) : Nat → Nat → Bool :=
  (adjPairs n).foldl (adjStep t) m

/-- The identity `np.eye(n).astype('bool')` as a function matrix. -/
def eyeBool : Nat → Nat → Bool := fun i j => i == j

/-- The state of an `adjacent` builder instance: the stored solution
board, the `tauAdj` parameter, and the adjacency matrix computed once at
construction. -/
structure AdjacentP where
  solution : Board
  tauAdj : Rat
  adjMat : Nat → Nat → Bool

/-- adjacent.__init__ on a board: start from the boolean identity and
run __processAdjacency, whose pair test is board.testAdjacent with the
given threshold and the (explicit) random contour subsampling draws for
each pair. -/
def adjacentInit (solBoard : Board) (tauAdj : Rat)
    (draws : Nat → Nat → List Nat × List Nat) : AdjacentP :=
  { solution := solBoard,
    tauAdj := tauAdj,
    adjMat := processAdjacency (board.size solBoard)
      (fun ii jj => board.testAdjacent solBoard ii jj tauAdj
        (draws ii jj).1 (draws ii jj).2)
      eyeBool }

/-- Modelled from the spec: the persisted calibration record written by
the arrangement save path (puzzle/builder/arrangement.py is absent from
src/) — an opaque serialized structure carrying the calibrated board
plus the optional numeric threshold field `tauAdj`. -/
structure SavedPuzzle where
  pieces : List Piece
  id_count : Nat
  tauAdj : Option Rat

/-- Modelled from the spec: saving an adjacent instance persists its
calibrated board and its `tauAdj` threshold. -/
def saveAdjacent (a : AdjacentP) : SavedPuzzle :=
  { pieces := a.solution.pieces,
    id_count := a.solution.id_count,
    tauAdj := some a.tauAdj }

/-- adjacent.buildFromFile_Puzzle: load the arrangement (its board),
pick up `tauAdj` from the record when present (default 30 from paramAdj
otherwise), and construct a fresh `adjacent` instance — which re-runs
__processAdjacency with fresh random draws. -/
def buildFromFile_Puzzle (data : SavedPuzzle)
    (draws : Nat → Nat → List Nat × List Nat) : AdjacentP :=
  let solution : Board := { pieces := data.pieces, id_count := data.id_count }
  match data.tauAdj with
  | some t => adjacentInit solution t draws
  | none => adjacentInit solution 30 draws

end adjacent

/-! ### Rendering (board.toImage, caller-supplied canvas branch) -/

/-- One compositing event: piece `pieceId` stamped with offset
`-bbox[0]` (what `piece.placeInImage(theImage, offset=-bbox[0])` would
draw). -/
structure Stamp where
  pieceId : Nat
  offset : Int × Int
  deriving DecidableEq, Repr

namespace board

/-- board.toImage with a caller-supplied canvas of shape `(rows, cols)`:
computes `extents` and `boundingBox` (both exit on an empty board), then
checks `(theImage.shape[:2] - lengths > 0).all()` — note this compares
rows against the x-extent and cols against the y-extent, strictly.  On
success it walks the pieces but stamps each one (at offset `-bbox[0]`)
only under `if ID_DISPLAY == True`; on failure it raises RuntimeError
('The image is too small.'). -/
def toImage (b : Board) (shape : Int × Int) (ID_DISPLAY : Bool) :
    PyOutcome (List Stamp) :=
  match extents b with
  | PyOutcome.ok lengths =>
    match boundingBox b with
    | PyOutcome.ok bbox =>
        if shape.1 - lengths.1 > 0 ∧ shape.2 - lengths.2 > 0 then
          PyOutcome.ok
            (if ID_DISPLAY then
              b.pieces.map (fun piece =>
                Stamp.mk piece.id (-bbox.1.1, -bbox.1.2))
            else [])
        else PyOutcome.raised PyError.runtimeError
    | PyOutcome.raised e => PyOutcome.raised e
    | PyOutcome.exited => PyOutcome.exited
  | PyOutcome.raised e => PyOutcome.raised e
  | PyOutcome.exited => PyOutcome.exited

end board

/-! ### Region extraction (puzzle/parser/fromLayer.py, mask2regions)

The contour discovery itself (`findCorrectedContours`, cv2.findContours,
cv2.drawContours, cv2.boundingRect) is external imagery code; its output
is the candidate list: each candidate carries an opaque payload id
standing for its mask/image crops, and its bounding rectangle
`(x, y, w, h)` from cv2.boundingRect.  The duplicate-suppression loop of
mask2regions is embedded exactly. -/

namespace fromLayer

/-- An axis-aligned box `[x1, y1, x2, y2]`. -/
structure Box4 where
  x1 : Rat
  y1 : Rat
  x2 : Rat
  y2 : Rat
  deriving DecidableEq, Repr

/-- Modelled from the spec: `bb_intersection_over_union` from
puzzle/utils/shapeProcessing.py, which is absent from src/ — the
intersection-over-union overlap ratio of the two boxes' areas. -/
def bb_intersection_over_union (boxA boxB : Box4) : Rat :=
  let xA := max boxA.x1 boxB.x1
  let yA := max boxA.y1 boxB.y1
  let xB := min boxA.x2 boxB.x2
  let yB := min boxA.y2 boxB.y2
  let interArea := max 0 (xB - xA) * max 0 (yB - yA)
  let boxAArea := (boxA.x2 - boxA.x1) * (boxA.y2 - boxA.y1)
  let boxBArea := (boxB.x2 - boxB.x1) * (boxB.y2 - boxB.y1)
  interArea / (boxAArea + boxBArea - interArea)

/-- One candidate contour from `findCorrectedContours`: an opaque
payload id (standing for the contour and its crops) and its cv2
boundingRect `(x, y, w, h)`. -/
structure Candidate where
  cid : Nat
  x : Int
  y : Int
  w : Int
  h : Int
  deriving DecidableEq, Repr

/-- An accepted region record `(seg crop, image crop, [x, y],
[x, y, x+w, y+h])`; the crops are carried as the payload id. -/
structure Region where
  cid : Nat
  loc : Int × Int
  box : Box4
  deriving DecidableEq, Repr

/-- The candidate's box `[x, y, x + w, y + h]`. -/
def boxOf (c : Candidate) : Box4 :=
  Box4.mk (c.x : Rat) (c.y : Rat) ((c.x + c.w : Int) : Rat) ((c.y + c.h : Int) : Rat)

/-- The region record appended for an accepted candidate. -/
def regionOf (c : Candidate) : Region :=
  Region.mk c.cid (c.x, c.y) (boxOf c)

/-- The inner `for region in regions: ... break` loop computing
`skipflag`: true as soon as an accepted region's box has IoU
strictly above 0.5 with the new box. -/
def skipCheck : List Region → Box4 → Bool
  | [], _ => false
  | r :: rest, bx =>
      if bb_intersection_over_union r.box bx > 1/2 then true
      else skipCheck rest bx

/-- fromLayer.mask2regions, from the candidate list onward: accepted
regions accumulate in discovery order, each new candidate being skipped
exactly when `skipflag` fires against the already-accepted regions. -/
def mask2regions (desired_cnts : List Candidate) : List Region :=
  desired_cnts.foldl (fun regions c =>
    if skipCheck regions (boxOf c) then regions
    else regions ++ [regionOf c]) []

/-- Follows the spec's words (duplicate suppression): a region is
discarded if and only if its bounding rectangle has
intersection-over-union overlap strictly greater than 0.5 with the
bounding rectangle of some already-accepted region; all other regions
are appended in discovery order. -/
def specSuppress : List Candidate → List Region → List Region
  | [], acc => acc
  | c :: cs, acc =>
      if acc.any (fun r =>
          decide (bb_intersection_over_union r.box (boxOf c) > 1/2)) then
        specSuppress cs acc
      else
        specSuppress cs (acc ++ [regionOf c])

end fromLayer

/-! ### Theorems for claims C1, C2, C8, C10 -/

/-- Claim C1 (code bug exhibited): on a board whose FIRST piece carries
the requested id, `rmPiece` leaves the board unchanged, because the
guard `if rm_index:` treats the found index 0 as falsy, exactly like the
not-found `None`.  Here a one-piece board keeps its piece after
`rmPiece` is called with that piece's id, contradicting the claim that
the first matching piece is removed. -/
theorem rmPiece_skips_index_zero :
    board.rmPiece (Board.mk [Piece.mk 5 (0, 0) (10, 10) []] 6) 5
      = Board.mk [Piece.mk 5 (0, 0) (10, 10) []] 6
    ∧ (board.rmPiece (Board.mk [Piece.mk 5 (0, 0) (10, 10) []] 6) 5).pieces.length = 1 := by
  constructor <;> rfl

/-- Claim C2 (counterexample): on the empty board, `boundingBox` does
not raise a catchable EmptyBoardError — it prints and calls `exit()`,
terminating the process, and `extents` inherits the same exit. -/
theorem boundingBox_empty_exits_not_raises :
    board.boundingBox (Board.mk [] 0) = PyOutcome.exited
    ∧ board.boundingBox (Board.mk [] 0)
        ≠ PyOutcome.raised PyError.emptyBoardError
    ∧ board.extents (Board.mk [] 0) = PyOutcome.exited := by
  refine ⟨rfl, ?_, rfl⟩
  intro h
  exact PyOutcome.noConfusion h

/-- Claim C2 (amended): for every board with zero pieces, both
`boundingBox` and `extents` fail by terminating the process via
`exit()` (after printing), never returning a bounding box and never
raising a catchable error. -/
theorem boundingBox_empty_exit (b : Board) (h : b.pieces = []) :
    board.boundingBox b = PyOutcome.exited
    ∧ board.extents b = PyOutcome.exited := by
  have hb : board.boundingBox b = PyOutcome.exited := by
    unfold board.boundingBox
    rw [h]
  exact ⟨hb, by unfold board.extents; rw [hb]⟩

/-- Witness for the amended C2 theorem at the concrete empty board. -/
theorem boundingBox_empty_exit_witness :
    board.boundingBox (Board.mk [] 3) = PyOutcome.exited
    ∧ board.extents (Board.mk [] 3) = PyOutcome.exited :=
  boundingBox_empty_exit (Board.mk [] 3) rfl

/-- Claim C8: invoking `score` or `compare` on the abstract base matcher
raises (NotImplementedError, the code's rendering of the spec's
UnimplementedStrategyError) for every pair of inputs; neither ever
returns a value, so no NaN or False sentinel can come back. -/
theorem matcher_base_raises (yA yB : Piece) :
    matcher.score yA yB = PyOutcome.raised PyError.notImplementedError
    ∧ matcher.compare yA yB = PyOutcome.raised PyError.notImplementedError
    ∧ (∀ v : Rat, matcher.score yA yB ≠ PyOutcome.ok v)
    ∧ (∀ v : Bool, matcher.compare yA yB ≠ PyOutcome.ok v) := by
  refine ⟨rfl, rfl, ?_, ?_⟩ <;>
    intro v h <;> exact PyOutcome.noConfusion h

/-- Claim C10: the base matcher's `process` has body `pass`: for every
input it returns `None` normally, raising nothing. -/
theorem matcher_base_process_returns_none (y : Piece) :
    matcher.process y = PyOutcome.ok none := rfl

/-! ### Claim C6: size equals the number of pieceLocations entries -/

/-- Inserting a key not present in the dict appends one entry. -/
lemma dictInsert_length_of_new (d : List (Nat × (Int × Int))) (k : Nat)
    (v : Int × Int) (h : ∀ kv ∈ d, kv.1 ≠ k) :
    board.dictInsert d k v = d ++ [(k, v)] := by
  unfold board.dictInsert
  have : d.any (fun kv => kv.1 == k) = false := by
    simp only [List.any_eq_false, beq_iff_eq]
    exact h
  rw [this]
  simp

/-- Folding dict insertion over pieces with pairwise distinct ids, none
of which occurs among the accumulated keys, adds exactly one entry per
piece. -/
lemma pieceLocations_fold_length (ps : List Piece) :
    ∀ d : List (Nat × (Int × Int)),
      (∀ p ∈ ps, ∀ kv ∈ d, kv.1 ≠ p.id) →
      (ps.map Piece.id).Nodup →
      (ps.foldl (fun pLocs piece =>
        board.dictInsert pLocs piece.id piece.rLoc) d).length
        = d.length + ps.length := by
  induction ps with
  | nil => intro d _ _; simp
  | cons p ps ih =>
    intro d hdisj hnd
    have hfresh : ∀ kv ∈ d, kv.1 ≠ p.id :=
      fun kv hkv => hdisj p (List.mem_cons_self p ps) kv hkv
    have hstep : board.dictInsert d p.id p.rLoc = d ++ [(p.id, p.rLoc)] :=
      dictInsert_length_of_new d p.id p.rLoc hfresh
    have hnd' : (ps.map Piece.id).Nodup := by
      simpa using hnd.of_cons
    have hnd2 : (p.id :: ps.map Piece.id).Nodup := by simpa using hnd
    have hid_not : p.id ∉ ps.map Piece.id := (List.nodup_cons.mp hnd2).1
    have hdisj' : ∀ q ∈ ps, ∀ kv ∈ d ++ [(p.id, p.rLoc)], kv.1 ≠ q.id := by
      intro q hq kv hkv
      rcases List.mem_append.mp hkv with hkv | hkv
      · exact hdisj q (List.mem_cons_of_mem p hq) kv hkv
      · have hkv' : kv = (p.id, p.rLoc) := by simpa using hkv
        subst hkv'
        intro hcontra
        have hmem : q.id ∈ ps.map Piece.id := List.mem_map_of_mem Piece.id hq
        have hcontra' : p.id = q.id := by simpa using hcontra
        rw [← hcontra'] at hmem
        exact hid_not hmem
    calc ((p :: ps).foldl (fun pLocs piece =>
            board.dictInsert pLocs piece.id piece.rLoc) d).length
        = (ps.foldl (fun pLocs piece =>
            board.dictInsert pLocs piece.id piece.rLoc)
            (d ++ [(p.id, p.rLoc)])).length := by
          simp [List.foldl_cons, hstep]
      _ = (d ++ [(p.id, p.rLoc)]).length + ps.length :=
          ih (d ++ [(p.id, p.rLoc)]) hdisj' hnd'
      _ = d.length + (p :: ps).length := by simp; omega

/-- Claim C6: on every non-empty board whose pieces carry pairwise
distinct ids (the data-model invariant maintained by addPiece's counter),
`size()` equals the number of entries of the id-to-location dict built by
`pieceLocations()`. -/
theorem size_eq_pieceLocations_length (b : Board)
    (hne : b.pieces ≠ []) (hnd : (b.pieces.map Piece.id).Nodup) :
    board.size b = (board.pieceLocations b).length := by
  unfold board.size board.pieceLocations
  have h := pieceLocations_fold_length b.pieces []
    (by intro p _ kv hkv; exact absurd hkv (List.not_mem_nil kv)) hnd
  simp only [List.length_nil, Nat.zero_add] at h
  exact h.symm

/-- Witness for claim C6 on a concrete two-piece board. -/
theorem size_eq_pieceLocations_length_witness :
    board.size (Board.mk
      [Piece.mk 0 (0, 0) (5, 5) [], Piece.mk 1 (9, 0) (5, 5) []] 2)
      = (board.pieceLocations (Board.mk
      [Piece.mk 0 (0, 0) (5, 5) [], Piece.mk 1 (9, 0) (5, 5) []] 2)).length :=
  size_eq_pieceLocations_length _ (by decide) (by decide)

/-! ### Claim C3: the edge matcher's conjunctive gate -/

/-- Sample regular piece data for concrete evaluation: four identical
edges of type 0 with color token 0. -/
def sampleEdges : RegularData :=
  RegularData.mk (fun _ => EdgeDes.mk 0 0)

/-- A color kernel that reports distance 0 everywhere, for concrete
evaluation. -/
def zeroKernel : Nat → Nat → EFloat := fun _ _ => EFloat.fin 0

/-- Claim C3: for two pieces of the same regular type, `score` yields
exactly 4 shape distances and 4 color distances, `compare` returns True
exactly when all 4 shape distances are below tau_shape AND all 4 color
distances are below tau_color, and in particular any single color
distance at or above tau_color forces `compare` to return False
regardless of the shape distances.  The result holds for every shape
method kernel and every color kernel. -/
theorem edge_compare_conjunctive (tau_shape tau_color : Rat)
    (dshape dcolor : Nat → Nat → EFloat) (dA dB : RegularData)
    (ds dc : List EFloat)
    (h : edge.score dshape dcolor (PieceObj.regular dA) (PieceObj.regular dB)
      = PyOutcome.ok (ds, dc)) :
    ds.length = 4 ∧ dc.length = 4
    ∧ (edge.compare tau_shape tau_color dshape dcolor
        (PieceObj.regular dA) (PieceObj.regular dB) = PyOutcome.ok true
      ↔ (ds.all (fun d => d.ltTau tau_shape) = true
         ∧ dc.all (fun d => d.ltTau tau_color) = true))
    ∧ (∀ d ∈ dc, d.ltTau tau_color = false →
        edge.compare tau_shape tau_color dshape dcolor
          (PieceObj.regular dA) (PieceObj.regular dB) = PyOutcome.ok false) := by
  have hds : (List.finRange 4).map
        (fun i => dshape (dA.edge i).etype (dB.edge i).etype) = ds
      ∧ (List.finRange 4).map
        (fun i => dcolor (dA.edge i).colorFea (dB.edge i).colorFea) = dc := by
    unfold edge.score at h
    simp [pyType] at h
    exact h
  have hc : edge.compare tau_shape tau_color dshape dcolor
      (PieceObj.regular dA) (PieceObj.regular dB)
      = PyOutcome.ok (ds.all (fun d => d.ltTau tau_shape)
          && dc.all (fun d => d.ltTau tau_color)) := by
    unfold edge.compare
    rw [h]
  refine ⟨?_, ?_, ?_, ?_⟩
  · rw [← hds.1]; simp
  · rw [← hds.2]; simp
  · rw [hc]
    simp [Bool.and_eq_true]
  · intro d hd hf
    have hall : dc.all (fun d => d.ltTau tau_color) = false := by
      rw [List.all_eq_false]
      exact ⟨d, hd, by simp [hf]⟩
    rw [hc, hall]
    simp

/-- Witness for claim C3 on concrete identical regular pieces with the
'type' shape kernel and a zero color kernel at thresholds 1. -/
theorem edge_compare_conjunctive_witness :
    (List.replicate 4 (EFloat.fin 0)).length = 4
    ∧ (List.replicate 4 (EFloat.fin 0)).length = 4
    ∧ (edge.compare 1 1 edge.dis_shape_type zeroKernel
        (PieceObj.regular sampleEdges) (PieceObj.regular sampleEdges)
          = PyOutcome.ok true
      ↔ ((List.replicate 4 (EFloat.fin 0)).all (fun d => d.ltTau 1) = true
         ∧ (List.replicate 4 (EFloat.fin 0)).all (fun d => d.ltTau 1) = true))
    ∧ (∀ d ∈ List.replicate 4 (EFloat.fin 0), d.ltTau 1 = false →
        edge.compare 1 1 edge.dis_shape_type zeroKernel
          (PieceObj.regular sampleEdges) (PieceObj.regular sampleEdges)
            = PyOutcome.ok false) :=
  edge_compare_conjunctive 1 1 edge.dis_shape_type zeroKernel
    sampleEdges sampleEdges (List.replicate 4 (EFloat.fin 0))
    (List.replicate 4 (EFloat.fin 0)) (by decide)

/-! ### Claim C4: symmetry and true diagonal of the adjacency matrix -/

/-- Pointwise description of the paired update `adjMat[a, b] = True;
adjMat[b, a] = True`. -/
lemma matSet_pair_get (m : Nat → Nat → Bool) (a b i j : Nat) :
    adjacent.matSet (adjacent.matSet m a b) b a i j
      = (decide ((i = b ∧ j = a) ∨ (i = a ∧ j = b)) || m i j) := by
  unfold adjacent.matSet
  by_cases h1 : i = b ∧ j = a
  · simp [h1]
  · by_cases h2 : i = a ∧ j = b
    · simp [h1, h2]
    · simp [h1, h2]

/-- One loop iteration of __processAdjacency preserves symmetry and the
true diagonal, whatever the adjacency test returned. -/
lemma adjStep_symm_diag (t : Nat → Nat → Bool) (p : Nat × Nat)
    (m : Nat → Nat → Bool)
    (hsym : ∀ i j, m i j = m j i) (hdiag : ∀ i, m i i = true) :
    (∀ i j, adjacent.adjStep t m p i j = adjacent.adjStep t m p j i)
    ∧ (∀ i, adjacent.adjStep t m p i i = true) := by
  unfold adjacent.adjStep
  by_cases ht : t p.1 p.2
  · simp only [ht, if_true]
    constructor
    · intro i j
      rw [matSet_pair_get, matSet_pair_get, hsym i j]
      have hiff : ((i = p.2 ∧ j = p.1) ∨ (i = p.1 ∧ j = p.2))
          ↔ ((j = p.2 ∧ i = p.1) ∨ (j = p.1 ∧ i = p.2)) := by tauto
      rw [decide_eq_decide.mpr hiff]
    · intro i
      rw [matSet_pair_get, hdiag i]
      simp
  · simp only [ht, if_false]
    exact ⟨hsym, hdiag⟩

/-- Folding the __processAdjacency loop over any pair list preserves
symmetry and the true diagonal. -/
lemma processAdjacency_fold_inv (t : Nat → Nat → Bool) :
    ∀ (ps : List (Nat × Nat)) (m : Nat → Nat → Bool),
      (∀ i j, m i j = m j i) → (∀ i, m i i = true) →
      (∀ i j, ps.foldl (adjacent.adjStep t) m i j
        = ps.foldl (adjacent.adjStep t) m j i)
      ∧ (∀ i, ps.foldl (adjacent.adjStep t) m i i = true) := by
  intro ps
  induction ps with
  | nil => intro m hs hd; exact ⟨hs, hd⟩
  | cons p ps ih =>
    intro m hs hd
    have h := adjStep_symm_diag t p m hs hd
    simpa using ih (adjacent.adjStep t m p) h.1 h.2

/-- Claim C4: for every solution board, threshold, and random draw
family, the adjacency matrix computed at construction of the Adjacent
builder is symmetric and has a true diagonal on all in-range indices
(indeed on all indices of the functional matrix). -/
theorem adjMat_symm_diag (solBoard : Board) (tauAdj : Rat)
    (draws : Nat → Nat → List Nat × List Nat) (i j : Nat)
    (hi : i < board.size solBoard) (hj : j < board.size solBoard) :
    ((adjacent.adjacentInit solBoard tauAdj draws).adjMat i j
      = (adjacent.adjacentInit solBoard tauAdj draws).adjMat j i)
    ∧ (adjacent.adjacentInit solBoard tauAdj draws).adjMat i i = true := by
  have hsym0 : ∀ i j, adjacent.eyeBool i j = adjacent.eyeBool j i := by
    intro i j
    unfold adjacent.eyeBool
    rw [Bool.eq_iff_iff]
    simp only [beq_iff_eq]
    exact eq_comm
  have hdiag0 : ∀ i, adjacent.eyeBool i i = true := by
    intro i; simp [adjacent.eyeBool]
  have h := processAdjacency_fold_inv
    (fun ii jj => board.testAdjacent solBoard ii jj tauAdj
      (draws ii jj).1 (draws ii jj).2)
    (adjacent.adjPairs (board.size solBoard)) adjacent.eyeBool hsym0 hdiag0
  exact ⟨h.1 i j, h.2 i⟩

/-- A concrete two-piece board for evaluating the adjacency builder. -/
def adjWitnessBoard : Board :=
  Board.mk [Piece.mk 0 (0, 0) (1, 1) [(0, 0)],
            Piece.mk 1 (1, 0) (1, 1) [(0, 0)]] 2

/-- A concrete draw family: always sample contour index 0. -/
def adjWitnessDraws : Nat → Nat → List Nat × List Nat := fun _ _ => ([0], [0])

/-- Witness for claim C4 on the concrete two-piece board. -/
theorem adjMat_symm_diag_witness :
    (0 : Nat) < board.size adjWitnessBoard
    ∧ (1 : Nat) < board.size adjWitnessBoard
    ∧ (((adjacent.adjacentInit adjWitnessBoard 2 adjWitnessDraws).adjMat 0 1
        = (adjacent.adjacentInit adjWitnessBoard 2 adjWitnessDraws).adjMat 1 0)
      ∧ (adjacent.adjacentInit adjWitnessBoard 2 adjWitnessDraws).adjMat 0 0
          = true) :=
  ⟨by decide, by decide,
    adjMat_symm_diag adjWitnessBoard 2 adjWitnessDraws 0 1 (by decide) (by decide)⟩

/-! ### Claim C5: toImage on a caller-supplied canvas -/

/-- A one-piece board whose extents are exactly (10, 10). -/
def renderBoard : Board :=
  Board.mk [Piece.mk 0 (0, 0) (10, 10) [(0, 0)]] 1

/-- Claim C5 (code bug exhibited): on a one-piece board with extents
(10, 10), a canvas of exactly that shape — large enough per the claim —
is rejected with RuntimeError because the code demands strict
inequality; and on a strictly larger canvas with the default
`ID_DISPLAY=False`, no piece is stamped at all (the compositing call
sits inside `if ID_DISPLAY == True`), while with `ID_DISPLAY=True` the
piece is stamped at `location - boundingBoxMin`. -/
theorem toImage_supplied_canvas_bug :
    board.toImage renderBoard (10, 10) false
      = PyOutcome.raised PyError.runtimeError
    ∧ board.toImage renderBoard (20, 20) false = PyOutcome.ok []
    ∧ board.toImage renderBoard (20, 20) true
        = PyOutcome.ok [Stamp.mk 0 (0, 0)]
    ∧ board.size renderBoard = 1 := by
  refine ⟨?_, ?_, ?_, rfl⟩ <;> decide

/-! ### Claim C7: save/load round trip of the Adjacent builder -/

/-- A two-piece board whose contours contain one close pair of points
(distance 3) and one far pair (distance 100), so that the stochastic
adjacency test's verdict depends on which contour points are drawn. -/
def rtBoard : Board :=
  Board.mk [Piece.mk 0 (0, 0) (1, 1) [(0, 0), (100, 0)],
            Piece.mk 1 (0, 0) (1, 1) [(3, 0), (200, 0)]] 2

/-- Draws that pick the close contour points. -/
def rtDrawsNear : Nat → Nat → List Nat × List Nat := fun _ _ => ([0], [0])

/-- Draws that pick the far contour points. -/
def rtDrawsFar : Nat → Nat → List Nat × List Nat := fun _ _ => ([1], [1])

/-- Claim C7 (counterexample): an Adjacent builder constructed on
rtBoard with tauAdj = 5 and near draws records pieces 0 and 1 as
adjacent; saving it and loading it back recomputes the matrix with fresh
draws, and with the far draws the loaded matrix denies that adjacency —
the loaded adjacency matrix is NOT identical to the saved one. -/
theorem adjacent_roundtrip_counterexample :
    (adjacent.adjacentInit rtBoard 5 rtDrawsNear).adjMat 0 1 = true
    ∧ (adjacent.buildFromFile_Puzzle
        (adjacent.saveAdjacent (adjacent.adjacentInit rtBoard 5 rtDrawsNear))
        rtDrawsFar).adjMat 0 1 = false := by
  constructor <;> decide

/-- Claim C7 (amended): saving an Adjacent builder and loading it back
reproduces the same piece count, the same pieces (hence positions) and
the same tauAdj; the adjacency matrix is recomputed by the stochastic
adjacency test, and is identical to the saved one whenever the reload's
contour-sampling draws coincide with the construction-time draws. -/
theorem adjacent_roundtrip_amended (solBoard : Board) (tauAdj : Rat)
    (draws drawsReload : Nat → Nat → List Nat × List Nat)
    (h : drawsReload = draws) :
    board.size (adjacent.buildFromFile_Puzzle
      (adjacent.saveAdjacent (adjacent.adjacentInit solBoard tauAdj draws))
      drawsReload).solution = board.size solBoard
    ∧ (adjacent.buildFromFile_Puzzle
        (adjacent.saveAdjacent (adjacent.adjacentInit solBoard tauAdj draws))
        drawsReload).solution.pieces = solBoard.pieces
    ∧ (adjacent.buildFromFile_Puzzle
        (adjacent.saveAdjacent (adjacent.adjacentInit solBoard tauAdj draws))
        drawsReload).tauAdj = tauAdj
    ∧ (adjacent.buildFromFile_Puzzle
        (adjacent.saveAdjacent (adjacent.adjacentInit solBoard tauAdj draws))
        drawsReload).adjMat
      = (adjacent.adjacentInit solBoard tauAdj draws).adjMat := by
  subst h
  exact ⟨rfl, rfl, rfl, rfl⟩

/-- Witness for the amended C7 theorem: concrete board, threshold and
equal draws. -/
theorem adjacent_roundtrip_amended_witness :
    board.size (adjacent.buildFromFile_Puzzle
      (adjacent.saveAdjacent (adjacent.adjacentInit rtBoard 5 rtDrawsNear))
      rtDrawsNear).solution = board.size rtBoard
    ∧ (adjacent.buildFromFile_Puzzle
        (adjacent.saveAdjacent (adjacent.adjacentInit rtBoard 5 rtDrawsNear))
        rtDrawsNear).solution.pieces = rtBoard.pieces
    ∧ (adjacent.buildFromFile_Puzzle
        (adjacent.saveAdjacent (adjacent.adjacentInit rtBoard 5 rtDrawsNear))
        rtDrawsNear).tauAdj = 5
    ∧ (adjacent.buildFromFile_Puzzle
        (adjacent.saveAdjacent (adjacent.adjacentInit rtBoard 5 rtDrawsNear))
        rtDrawsNear).adjMat
      = (adjacent.adjacentInit rtBoard 5 rtDrawsNear).adjMat :=
  adjacent_roundtrip_amended rtBoard 5 rtDrawsNear rtDrawsNear rfl

/-! ### Claim C9: duplicate suppression in mask2regions -/

/-- The skipflag loop with break equals an existence check over the
accepted regions. -/
lemma skipCheck_eq_any (rs : List fromLayer.Region) (bx : fromLayer.Box4) :
    fromLayer.skipCheck rs bx
      = rs.any (fun r =>
          decide (fromLayer.bb_intersection_over_union r.box bx > 1/2)) := by
  induction rs with
  | nil => rfl
  | cons r rest ih =>
    unfold fromLayer.skipCheck
    by_cases h : fromLayer.bb_intersection_over_union r.box bx > 1/2
    · simp [h, ih]
    · simp [h, ih]

/-- The accumulating loop of mask2regions agrees with the spec-worded
suppression on every accumulator. -/
lemma mask2regions_fold_eq (cs : List fromLayer.Candidate) :
    ∀ acc : List fromLayer.Region,
      cs.foldl (fun regions c =>
        if fromLayer.skipCheck regions (fromLayer.boxOf c) then regions
        else regions ++ [fromLayer.regionOf c]) acc
      = fromLayer.specSuppress cs acc := by
  induction cs with
  | nil => intro acc; rfl
  | cons c cs ih =>
    intro acc
    unfold fromLayer.specSuppress
    rw [List.foldl_cons, skipCheck_eq_any]
    by_cases h : acc.any (fun r =>
        decide (fromLayer.bb_intersection_over_union r.box
          (fromLayer.boxOf c) > 1/2)) = true
    · simp only [h, if_true]
      exact ih acc
    · simp only [Bool.not_eq_true] at h
      simp only [h, if_false]
      exact ih (acc ++ [fromLayer.regionOf c])

/-- Claim C9: the regions produced by mask2regions from the candidate
contours are exactly those prescribed by the spec's duplicate
suppression — a candidate is discarded if and only if its bounding
rectangle has IoU strictly above 0.5 with some already-accepted region,
and all others are appended in discovery order. -/
theorem mask2regions_duplicate_suppression
    (desired_cnts : List fromLayer.Candidate) :
    fromLayer.mask2regions desired_cnts
      = fromLayer.specSuppress desired_cnts [] :=
  mask2regions_fold_eq desired_cnts []
